import Mathlib

/-!
Shallow embedding of the `rad patch` command (`src/patch/src/lib.rs`) of the
radicle-cli repository, together with proofs about its behaviour.

The embedding models:
* the pure message parsing done by `edit_message` (lines 321-339), over explicit
  character lists so that everything evaluates inside the kernel;
* the control flow of `create` (lines 172-319) as a pure function of an
  environment record holding the results of every external call, returning the
  list of external events it triggered (merge-target resolution, commit-graph
  queries, the Patch Store call, synchronization) and an outcome that separates
  ordinary error returns from panics (Rust `todo!` and `unwrap`);
* the partition performed by `list` (lines 118-141);
* the rendering performed by `print` (lines 342-409);
* a model of `find_merge_targets`, which lives in the external radicle-common
  crate and whose behaviour is therefore taken from the specification.
-/

set_option linter.unusedVariables false
set_option maxRecDepth 100000

/-- A commit-graph object identifier. -/
abbrev Oid := Nat

/-- A peer, identified by its display name (all the code under scrutiny uses of
a peer only its name and identity comparison). -/
abbrev PeerName := String

/-- Result of one tracked peer in `radicle_common::patch::find_merge_targets`:
the pair of the peer and the tip commit of its default branch. -/
abbrev Target := PeerName × Oid

/-- The two sequences returned by merge-target resolution (spec section 3,
MergeTargetSet). -/
structure MergeTargetSet where
  merged : List Target
  not_merged : List Target
deriving DecidableEq, Repr

/-- Modelled from the spec: the merge-target designator stored in a Patch is
either the default designator or an explicit peer branch; `MergeTarget` itself
is defined in the external radicle-common crate (only its use is under src).
The source passes the constant default value to the store. -/
inductive MergeTarget where
  | upstream
  | explicitPeer (peer : PeerName) (tip : Oid)
deriving DecidableEq, Repr

/-- The value of the Rust expression MergeTarget.default in the call on
line 302 of the source: the constant default designator. -/
def MergeTarget.defaultTarget : MergeTarget := .upstream

/- ### The instructional boilerplate block (`PATCH_MSG`, lines 39-49) -/

/-- Exact transcription of the Rust constant `PATCH_MSG` (a raw string that
begins and ends with a newline). -/
def PATCH_MSG : String :=
  "\n<!--\nPlease enter a patch message for your changes. An empty\nmessage aborts the patch proposal.\n\nThe first line is the patch title. The patch description\nfollows, and must be separated with a blank line, just\nlike a commit message. Markdown is supported in the title\nand description.\n-->\n"

/- ### Character-list models of the Rust string primitives used -/

/-- Rust char::is_whitespace, restricted to the ASCII whitespace characters
(every string handled by this command is ASCII). -/
def rustIsWhitespace (c : Char) : Bool :=
  c == ' ' || c == '\n' || c == '\t' || c == '\r'

/-- Rust str::trim: remove leading and trailing whitespace. -/
def rustTrim (s : List Char) : List Char :=
  ((s.dropWhile rustIsWhitespace).reverse.dropWhile rustIsWhitespace).reverse

/-- Rust str::split_once with the separator "\n\n": split around the leftmost
occurrence of two consecutive newlines, none if there is no occurrence. -/
def splitOnceNN : List Char → Option (List Char × List Char)
  | '\n' :: '\n' :: rest => some ([], rest)
  | c :: cs => (splitOnceNN cs).map (fun p => (c :: p.1, p.2))
  | [] => none

/-- Helper for `rustRemoveAll`: scan the text left to right; a positive counter
means we are inside an occurrence being deleted. When the counter is zero and
the pattern starts here, delete this character and arm the counter to delete
the remaining pattern characters; matching resumes after the occurrence, so
occurrences are removed non-overlapping and leftmost first, exactly like Rust
str::replace with an empty replacement. -/
def removeAllAux (pat : List Char) : List Char → Nat → List Char
  | [], _ => []
  | _ :: cs, Nat.succ k => removeAllAux pat cs k
  | c :: cs, 0 =>
    if pat.isPrefixOf (c :: cs) && !pat.isEmpty then
      removeAllAux pat cs (pat.length - 1)
    else
      c :: removeAllAux pat cs 0

/-- Rust str::replace(pat, "") for a nonempty pattern: delete every
non-overlapping occurrence of `pat`, scanning left to right. -/
def rustRemoveAll (s pat : List Char) : List Char :=
  removeAllAux pat s 0

/- ### The pure part of `edit_message` (lines 332-338) -/

/-- The parsing applied by `edit_message` to the text saved by the operator
(source lines 332-338): split at the first blank line into title and
description, trim both, then delete the boilerplate block
(`description.replace(PATCH_MSG.trim(), "")`). The trim happens before the
deletion, exactly as in the source. -/
def parse_message (message : String) : Except String (String × String) :=
  match splitOnceNN message.toList with
  | none => .error "invalid title or description"
  | some (t, d) =>
    let title := rustTrim t
    let descr := rustTrim d
    let descr := rustRemoveAll descr (rustTrim PATCH_MSG.toList)
    .ok (title.asString, descr.asString)

/-- Modelled from the spec: the editing session is provided by the external
radicle-terminal crate (only its invocation is under src). Per the spec its
strip-trailing-newlines option is enabled, so a save returns the buffer with
trailing newline characters removed. -/
def stripTrailingNewlines (s : String) : String :=
  ((s.toList.reverse.dropWhile (fun c => c == '\n')).reverse).asString

/- ### The control flow of `create` (lines 172-319) -/

/-- The Rust git2 Reference for HEAD, reduced to the two queries `create`
makes of it: `target()` and `shorthand()`. -/
structure HeadRef where
  target : Option Oid
  shorthand : Option String
deriving DecidableEq, Repr

/-- The Rust git2 Commit, reduced to the one query `create` makes of it:
`message()`, which is none when the message is not valid UTF-8. -/
structure Commit where
  message : Option String
deriving DecidableEq, Repr

/-- External events triggered by `create` that the claims talk about: the call
to merge-target resolution, the commit-graph ahead/behind query on the chosen
target, the Patch Store create call, and the synchronization run. -/
inductive Event where
  | findMergeTargets
  | graphAheadBehind (head target : Oid)
  | storeCreate (urn title description : String) (target : MergeTarget) (head : Oid)
  | sync (branch : String)
deriving DecidableEq, Repr

/-- Whether an event is a durable mutation (the Patch Store append) or an
outward-facing publication (the synchronization run); everything else `create`
does is a read or terminal output. -/
def Event.durable : Event → Bool
  | .storeCreate _ _ _ _ _ => true
  | .sync _ => true
  | _ => false

/-- Outcome of a run of `create`: normal success, an error return (an anyhow
error, carrying the optional remediation hint of Error.WithHint), or a Rust
panic (`todo!` on line 230, `unwrap` on lines 262 and 327). -/
inductive Res where
  | ok
  | err (msg : String) (hint : Option String)
  | panic (msg : String)
deriving DecidableEq, Repr

/-- Whether an outcome is an ordinary error return (as opposed to success or
a panic). -/
def Res.isErr : Res → Bool
  | .err _ _ => true
  | _ => false

/-- Environment of one run of `create`: the result of every external call it
can make, in source order. Function-typed fields stand for calls whose
arguments `create` chooses. -/
structure Env where
  repoHead : Except String HeadRef
  findCommit : Oid → Except String Commit
  refLike : String → Except String String
  storageHasHead : Except String Bool
  targets : Except String MergeTargetSet
  userName : Except String String
  graphAheadBehind : Oid → Oid → Except String (Nat × Nat)
  mergeBase : Oid → Oid → Except String Oid
  listCommits : Oid → Oid → Except String Unit
  confirmContinue : Bool
  editor : String → Except String (Option String)
  confirmCreate : Bool
  personLocal : Except String Unit
  patchesNew : Except String Unit
  storeCreateRes : Except String Nat
  urn : String
  optSync : Bool
  syncRun : String → Except String Unit

/-- Prepend an event that has just been triggered to the trace of a
continuation. -/
def withEvent (e : Event) (p : List Event × Res) : List Event × Res :=
  (e :: p.1, p.2)

/-- Stage of `create` from the editor invocation (line 272, inside
`edit_message`, lines 321-339) to the end. The editor call result is an
io::Result wrapped by `unwrap` (panic on error), none when the operator did
not save. After the message preview the second confirmation (line 292) guards
the Patch Store call (lines 296-305) and the optional sync (lines 310-316). -/
def createFromEditor (env : Env) (head_oid : Oid) (head_branch msg : String) :
    List Event × Res :=
  match env.editor (msg ++ PATCH_MSG) with
  | .error e => ([], .panic e)
  | .ok none => ([], .err "user aborted the patch" none)
  | .ok (some saved) =>
    match parse_message saved with
    | .error e => ([], .err e none)
    | .ok (title, description) =>
      if env.confirmCreate then
        match env.personLocal with
        | .error e => ([], .err e none)
        | .ok _ =>
          match env.patchesNew with
          | .error e => ([], .err e none)
          | .ok _ =>
            withEvent (Event.storeCreate env.urn title description
                MergeTarget.defaultTarget head_oid)
              (match env.storeCreateRes with
               | .error e => ([], .err e none)
               | .ok _ =>
                 if env.optSync then
                   withEvent (Event.sync head_branch)
                     (match env.syncRun head_branch with
                      | .error e => ([], .err e none)
                      | .ok _ => ([], .ok))
                 else ([], .ok))
      else ([], .err "patch proposal aborted by user" none)

/-- Stage of `create` from the ahead/behind query (line 247) to the end: the
query itself, the merge-base computation whose failure is hit by `unwrap` on
line 262 (a panic), the commit listing, the first confirmation (line 265) and
the commit-message extraction (lines 269-271). -/
def createFromGraphQuery (env : Env) (head_oid : Oid) (head_commit : Commit)
    (head_branch : String) (target_oid : Oid) : List Event × Res :=
  match env.graphAheadBehind head_oid target_oid with
  | .error e => ([], .err e none)
  | .ok _ =>
    match env.mergeBase target_oid head_oid with
    | .error e => ([], .panic e)
    | .ok mb =>
      match env.listCommits mb head_oid with
      | .error e => ([], .err e none)
      | .ok _ =>
        if env.confirmContinue then
          match head_commit.message with
          | none => ([], .err "commit summary is not valid UTF-8; aborting" none)
          | some msg => createFromEditor env head_oid head_branch msg
        else ([], .err "patch proposal aborted by user" none)

/-- Stage of `create` once the sole not-merged target is selected: the
user-name lookup (line 236) precedes the ahead/behind query. -/
def createFromTarget (env : Env) (head_oid : Oid) (head_commit : Commit)
    (head_branch : String) (target_oid : Oid) : List Event × Res :=
  match env.userName with
  | .error e => ([], .err e none)
  | .ok _ =>
    withEvent (Event.graphAheadBehind head_oid target_oid)
      (createFromGraphQuery env head_oid head_commit head_branch target_oid)

/-- The whole of `create` (lines 172-319): head resolution and its three
failure modes (lines 185-191), the durable-storage check with its hinted error
(lines 199-208), merge-target resolution and selection (lines 214-232, where
more than one candidate hits `todo!`, a panic), then the later stages. -/
def create (env : Env) : List Event × Res :=
  match env.repoHead with
  | .error e => ([], .err e none)
  | .ok head =>
    match head.target with
    | none => ([], .err "invalid HEAD ref; aborting" none)
    | some head_oid =>
      match env.findCommit head_oid with
      | .error e => ([], .err e none)
      | .ok head_commit =>
        match head.shorthand with
        | none => ([], .err "cannot create patch from detatched head; aborting" none)
        | some hb =>
          match env.refLike hb with
          | .error e => ([], .err e none)
          | .ok head_branch =>
            match env.storageHasHead with
            | .error e => ([], .err e none)
            | .ok false =>
              ([], .err "Current branch head not found in storage"
                (some "hint: run `rad push` and try again"))
            | .ok true =>
              withEvent Event.findMergeTargets
                (match env.targets with
                 | .error e => ([], .err e none)
                 | .ok targets =>
                   match targets.not_merged with
                   | [] => ([], .err "no merge targets found for patch" none)
                   | [(_, target_oid)] =>
                     createFromTarget env head_oid head_commit head_branch target_oid
                   | _ :: _ :: _ => ([], .panic "not yet implemented"))

/-- Modelled from the spec: the CLI shell around `run` (the binary entry point
is not under src) maps a run that returns successfully to process exit status
zero and a run that returns an error to a non-zero status; a panic also
terminates with a non-zero status. -/
def exitCode : Res → Nat
  | .ok => 0
  | .err _ _ => 1
  | .panic _ => 101

/-- A fully successful environment, used as the base point of the concrete
runs below: HEAD at commit 1 on branch "feature" whose commit message is the
two-part message of the specification scenario, one not-merged candidate
("peerB", 7), both confirmations accepted, the operator saving the seeded
message unchanged, sync disabled. -/
def env0 : Env where
  repoHead := .ok ⟨some 1, some "feature"⟩
  findCommit := fun _ => .ok ⟨some "Title line\n\nBody text"⟩
  refLike := fun s => .ok s
  storageHasHead := .ok true
  targets := .ok ⟨[], [("peerB", 7)]⟩
  userName := .ok "alice"
  graphAheadBehind := fun _ _ => .ok (1, 0)
  mergeBase := fun _ _ => .ok 5
  listCommits := fun _ _ => .ok ()
  confirmContinue := true
  editor := fun seed => .ok (some (stripTrailingNewlines seed))
  confirmCreate := true
  personLocal := .ok ()
  patchesNew := .ok ()
  storeCreateRes := .ok 42
  urn := "rad:project:1"
  optSync := false
  syncRun := fun _ => .ok ()

/- ### Merge-target resolution (external, modelled from the spec) -/

/-- One tracked peer as seen by merge-target resolution: the peer and the tip
commit of its recorded default branch, none when that branch is not resolvable
locally. -/
structure PeerView where
  peer : PeerName
  tip : Option Oid
deriving DecidableEq, Repr

/-- Modelled from the spec: `find_merge_targets` lives in the external
radicle-common crate (only its call site, line 214, is under src). Per the
spec, for each tracked peer whose default-branch tip is locally resolvable it
tests whether the proposed commit is an ancestor of (or equal to) that tip,
placing the (peer, tip) pair in `merged` if so and in `not_merged` otherwise;
peers whose tip is not resolvable are silently skipped. Peer order is
preserved. -/
def find_merge_targets (proposed : Oid) (isAncestor : Oid → Oid → Bool) :
    List PeerView → MergeTargetSet
  | [] => ⟨[], []⟩
  | pv :: rest =>
    let s := find_merge_targets proposed isAncestor rest
    match pv.tip with
    | none => s
    | some t =>
      if isAncestor proposed t then ⟨(pv.peer, t) :: s.merged, s.not_merged⟩
      else ⟨s.merged, (pv.peer, t) :: s.not_merged⟩

/-- The entry contributed to `merged` by one tracked peer, if any. -/
def mergedEntry (proposed : Oid) (isAncestor : Oid → Oid → Bool) (pv : PeerView) :
    Option Target :=
  match pv.tip with
  | none => none
  | some t => if isAncestor proposed t then some (pv.peer, t) else none

/-- The entry contributed to `not_merged` by one tracked peer, if any. -/
def notMergedEntry (proposed : Oid) (isAncestor : Oid → Oid → Bool) (pv : PeerView) :
    Option Target :=
  match pv.tip with
  | none => none
  | some t => if isAncestor proposed t then none else some (pv.peer, t)

/- ### The data rendered by `list` and `print` (lines 118-170, 342-409) -/

/-- A recorded merge of a revision by a peer (spec section 3, Merge). -/
structure Merge where
  peer : PeerName
  timestamp : Nat
deriving DecidableEq, Repr

/-- One proposed state of a patch (spec section 3, Revision). -/
structure Revision where
  version : Nat
  tag : Oid
  merges : List Merge
deriving DecidableEq, Repr

/-- The nonempty revision list of a patch (Rust NonEmpty): `last` is total. -/
structure NonEmptyRevs where
  first : Revision
  rest : List Revision
deriving DecidableEq, Repr

/-- Rust NonEmpty::last: the last revision, the first when there is no
later one. -/
def NonEmptyRevs.last (r : NonEmptyRevs) : Revision :=
  r.rest.getLastD r.first

/-- A patch as consumed by `list` and `print`: the author identity (as its
urn), the resolved author display name, title, creation timestamp, and the
nonempty revision sequence. -/
structure Patch where
  author : String
  authorName : String
  title : String
  timestamp : Nat
  revisions : NonEmptyRevs
deriving DecidableEq, Repr

/-- The partition performed by `list` (lines 135-141): walk the proposed
patches in store enumeration order, pushing each onto `own` when its author
urn equals the local identity urn and onto `other` otherwise. -/
def partitionProposed (whoami : String) :
    List (Nat × Patch) → List (Nat × Patch) × List (Nat × Patch)
  | [] => ([], [])
  | (id, p) :: rest =>
    let r := partitionProposed whoami rest
    if p.author = whoami then ((id, p) :: r.1, r.2) else (r.1, (id, p) :: r.2)

/-- What `print` resolves about a merging peer via PeerInfo::get
(lines 388-396): display name, peer identifier, delegate flag. -/
structure PeerInfo where
  name : String
  id : PeerName
  delegate : Bool
deriving DecidableEq, Repr

/-- One rendered merge line (lines 387-406): peer display name, the delegate
badge, the "you" badge (merging peer is the local peer), timestamp. -/
structure MergeLine where
  name : String
  delegateBadge : Bool
  youBadge : Bool
  timestamp : Nat
deriving DecidableEq, Repr

/-- The data rendered by one call of `print` (lines 342-409), with the
terminal formatting (colors, padding) treated as the identity. -/
structure Printed where
  title : String
  revisionVersion : Nat
  revisionTag : Oid
  authorName : String
  authorTimestamp : Nat
  youBadge : Bool
  diff : String
  mergeLines : List MergeLine
deriving DecidableEq, Repr

/-- The rendering performed by `print` (lines 342-409): take the last
revision; compute the ahead/behind segment only when the local HEAD reference
has a direct target (lines 368-376), an empty string otherwise; render title,
revision, author line and one line per recorded merge. The ahead/behind query
failure propagates as an error (the lone fallible step). -/
def printPatch (whoami : String) (patch : Patch) (headTarget : Option Oid)
    (gab : Oid → Oid → Except String (Nat × Nat))
    (peerInfo : PeerName → PeerInfo) (localPeer : PeerName) :
    Except String Printed :=
  let revision := patch.revisions.last
  let diffE : Except String String :=
    match headTarget with
    | some hoid =>
      match gab revision.tag hoid with
      | .error e => .error e
      | .ok (a, b) => .ok ("ahead " ++ toString a ++ ", behind " ++ toString b)
    | none => .ok ""
  match diffE with
  | .error e => .error e
  | .ok diff =>
    .ok { title := patch.title
          revisionVersion := revision.version
          revisionTag := revision.tag
          authorName := patch.authorName
          authorTimestamp := patch.timestamp
          youBadge := patch.author == whoami
          diff := diff
          mergeLines := revision.merges.map (fun m =>
            let pi := peerInfo m.peer
            { name := pi.name, delegateBadge := pi.delegate,
              youBadge := pi.id == localPeer, timestamp := m.timestamp }) }

/- ### Remaining definitions: spec-modelled store, concrete environments -/

/-- Modelled from the spec: the Patch Store create operation (external
radicle-common crate; only its call site, lines 298-305, is under src) appends
a new Patch under the given target designator, whose revision sequence is the
single version-0 revision tagged at the given head commit, with no merges
yet. -/
def storeMkPatch (author authorName title description : String) (ts : Nat)
    (target : MergeTarget) (head : Oid) : MergeTarget × Patch :=
  (target,
   { author := author, authorName := authorName, title := title,
     timestamp := ts, revisions := ⟨⟨0, head, []⟩, []⟩ })

/-- The HEAD reference of `env0`. -/
def hd0 : HeadRef := ⟨some 1, some "feature"⟩

/-- The head commit of `env0`. -/
def c0 : Commit := ⟨some "Title line\n\nBody text"⟩

/-- `env0` with the first confirmation (line 265) declined. -/
def envDecline : Env := { env0 with confirmContinue := false }

/-- `env0` with the second confirmation (line 292) declined. -/
def envDeclineCreate : Env := { env0 with confirmCreate := false }

/-- `env0` with an editing session the operator leaves without saving. -/
def envNoSave : Env := { env0 with editor := fun _ => .ok none }

/-- `env0` with a HEAD reference that has a branch name but no direct target
commit. -/
def envDetached : Env := { env0 with repoHead := .ok ⟨some 1, none⟩ }

/-- `env0` with the head commit absent from durable storage. -/
def envUnpub : Env := { env0 with storageHasHead := .ok false }

/-- `env0` with merge-target resolution returning two empty sequences. -/
def envNoTargets : Env := { env0 with targets := .ok ⟨[], []⟩ }

/-- `env0` where one peer has already merged the head commit and no peer is
left unmerged. -/
def envMergedOnly : Env := { env0 with targets := .ok ⟨[("peerA", 3)], []⟩ }

/-- `env0` with two not-merged candidates. -/
def envTwoTargets : Env :=
  { env0 with targets := .ok ⟨[], [("peerB", 7), ("peerC", 9)]⟩ }

/-- `env0` with a different sole not-merged candidate than env0. -/
def envOtherTarget : Env := { env0 with targets := .ok ⟨[], [("peerC", 9)]⟩ }

/-- Concrete tracked peers for the merge-target resolution witness: two
resolvable default branches and one unresolvable one. -/
def peersW : List PeerView := [⟨"A", some 3⟩, ⟨"B", some 1⟩, ⟨"C", none⟩]

/-- Concrete ancestry test for the merge-target resolution witness. -/
def ancW : Oid → Oid → Bool := fun a b => decide (a ≤ b)

/- ### Theorems -/

/-- Characterization of the entry a peer contributes to `merged`. -/
theorem mergedEntry_eq_some (p : Oid) (anc : Oid → Oid → Bool) (pv : PeerView)
    (x : Target) :
    mergedEntry p anc pv = some x ↔
      pv.peer = x.1 ∧ pv.tip = some x.2 ∧ anc p x.2 = true := by
  rcases x with ⟨xp, xt⟩
  unfold mergedEntry
  cases hpt : pv.tip with
  | none => simp
  | some t =>
    by_cases hanc : anc p t
    · simp only [hanc, if_true, Option.some.injEq, Prod.mk.injEq]
      constructor
      · rintro ⟨hp, ht⟩
        subst ht
        exact ⟨hp, rfl, hanc⟩
      · rintro ⟨hp, ht, _⟩
        subst ht
        exact ⟨hp, rfl⟩
    · simp only [hanc, if_false, Bool.false_eq_true, ite_false]
      constructor
      · intro hcon
        exact absurd hcon (by simp)
      · rintro ⟨hp, ht, hanc2⟩
        injection ht with ht2
        subst ht2
        exact absurd hanc2 (by simpa using hanc)

/-- Characterization of the entry a peer contributes to `not_merged`. -/
theorem notMergedEntry_eq_some (p : Oid) (anc : Oid → Oid → Bool) (pv : PeerView)
    (x : Target) :
    notMergedEntry p anc pv = some x ↔
      pv.peer = x.1 ∧ pv.tip = some x.2 ∧ anc p x.2 = false := by
  rcases x with ⟨xp, xt⟩
  unfold notMergedEntry
  cases hpt : pv.tip with
  | none => simp
  | some t =>
    by_cases hanc : anc p t
    · simp only [hanc, if_true]
      constructor
      · intro hcon
        exact absurd hcon (by simp)
      · rintro ⟨hp, ht, hanc2⟩
        injection ht with ht2
        subst ht2
        rw [hanc] at hanc2
        cases hanc2
    · simp only [hanc, Bool.false_eq_true, ite_false, Option.some.injEq, Prod.mk.injEq]
      constructor
      · rintro ⟨hp, ht⟩
        subst ht
        exact ⟨hp, rfl, by simpa using hanc⟩
      · rintro ⟨hp, ht, _⟩
        subst ht
        exact ⟨hp, rfl⟩

/-- The merged sequence is the peers whose resolvable tip has the proposed
commit as an ancestor, in peer order. -/
theorem find_merge_targets_merged_eq (p : Oid) (anc : Oid → Oid → Bool)
    (l : List PeerView) :
    (find_merge_targets p anc l).merged = l.filterMap (mergedEntry p anc) := by
  induction l with
  | nil => rfl
  | cons pv rest ih =>
    cases hpt : pv.tip with
    | none => simp [find_merge_targets, List.filterMap_cons, mergedEntry, hpt, ih]
    | some t =>
      by_cases hanc : anc p t <;>
        simp [find_merge_targets, List.filterMap_cons, mergedEntry, hpt, hanc, ih]

/-- The not-merged sequence is the peers whose resolvable tip does not have
the proposed commit as an ancestor, in peer order. -/
theorem find_merge_targets_not_merged_eq (p : Oid) (anc : Oid → Oid → Bool)
    (l : List PeerView) :
    (find_merge_targets p anc l).not_merged = l.filterMap (notMergedEntry p anc) := by
  induction l with
  | nil => rfl
  | cons pv rest ih =>
    cases hpt : pv.tip with
    | none => simp [find_merge_targets, List.filterMap_cons, notMergedEntry, hpt, ih]
    | some t =>
      by_cases hanc : anc p t <;>
        simp [find_merge_targets, List.filterMap_cons, notMergedEntry, hpt, hanc, ih]

/-- C1: for every set of tracked peers (with distinct peer identities),
`find_merge_targets` partitions the peers whose default branch is locally
resolvable into `merged` and `not_merged`: a resolvable peer is in `merged`
exactly when the proposed commit is an ancestor of its tip and in `not_merged`
exactly otherwise; an unresolvable peer appears in neither sequence; the two
sequences are disjoint; and every entry of either sequence comes from a
resolvable tracked peer. -/
theorem find_merge_targets_partitions (p : Oid) (anc : Oid → Oid → Bool)
    (peers : List PeerView) (hnd : (peers.map PeerView.peer).Nodup) :
    (∀ pv ∈ peers, ∀ t, pv.tip = some t →
      (((pv.peer, t) ∈ (find_merge_targets p anc peers).merged) ↔ anc p t = true) ∧
      (((pv.peer, t) ∈ (find_merge_targets p anc peers).not_merged) ↔ anc p t = false)) ∧
    (∀ pv ∈ peers, pv.tip = none →
      (∀ x ∈ (find_merge_targets p anc peers).merged, x.1 ≠ pv.peer) ∧
      (∀ x ∈ (find_merge_targets p anc peers).not_merged, x.1 ≠ pv.peer)) ∧
    (∀ x ∈ (find_merge_targets p anc peers).merged,
        x ∉ (find_merge_targets p anc peers).not_merged) ∧
    (∀ x, (x ∈ (find_merge_targets p anc peers).merged ∨
           x ∈ (find_merge_targets p anc peers).not_merged) →
        ∃ pv ∈ peers, pv.peer = x.1 ∧ pv.tip = some x.2) := by
  have hm := find_merge_targets_merged_eq p anc peers
  have hn := find_merge_targets_not_merged_eq p anc peers
  have hinj := List.inj_on_of_nodup_map hnd
  refine ⟨?_, ?_, ?_, ?_⟩
  · intro pv hpv t ht
    constructor
    · rw [hm, List.mem_filterMap]
      constructor
      · rintro ⟨pv2, hpv2, he⟩
        rw [mergedEntry_eq_some] at he
        exact he.2.2
      · intro hanc
        exact ⟨pv, hpv, (mergedEntry_eq_some p anc pv _).mpr ⟨rfl, ht, hanc⟩⟩
    · rw [hn, List.mem_filterMap]
      constructor
      · rintro ⟨pv2, hpv2, he⟩
        rw [notMergedEntry_eq_some] at he
        exact he.2.2
      · intro hanc
        exact ⟨pv, hpv, (notMergedEntry_eq_some p anc pv _).mpr ⟨rfl, ht, hanc⟩⟩
  · intro pv hpv hnone
    constructor
    · rw [hm]
      intro x hx hxp
      rcases List.mem_filterMap.mp hx with ⟨pv2, hpv2, he⟩
      rw [mergedEntry_eq_some] at he
      have : pv2 = pv := hinj hpv2 hpv (by rw [he.1, hxp])
      rw [this, hnone] at he
      cases he.2.1
    · rw [hn]
      intro x hx hxp
      rcases List.mem_filterMap.mp hx with ⟨pv2, hpv2, he⟩
      rw [notMergedEntry_eq_some] at he
      have : pv2 = pv := hinj hpv2 hpv (by rw [he.1, hxp])
      rw [this, hnone] at he
      cases he.2.1
  · intro x hx hx2
    rw [hm] at hx
    rw [hn] at hx2
    rcases List.mem_filterMap.mp hx with ⟨pv1, hpv1, he1⟩
    rcases List.mem_filterMap.mp hx2 with ⟨pv2, hpv2, he2⟩
    rw [mergedEntry_eq_some] at he1
    rw [notMergedEntry_eq_some] at he2
    rw [he1.2.2] at he2
    cases he2.2.2
  · intro x hx
    rcases hx with hx | hx
    · rw [hm] at hx
      rcases List.mem_filterMap.mp hx with ⟨pv1, hpv1, he1⟩
      rw [mergedEntry_eq_some] at he1
      exact ⟨pv1, hpv1, he1.1, he1.2.1⟩
    · rw [hn] at hx
      rcases List.mem_filterMap.mp hx with ⟨pv1, hpv1, he1⟩
      rw [notMergedEntry_eq_some] at he1
      exact ⟨pv1, hpv1, he1.1, he1.2.1⟩

/-- Witness for C1, at a concrete peer set and ancestry relation. -/
theorem find_merge_targets_partitions_witness :
    ((peersW.map PeerView.peer).Nodup) ∧
    ((∀ pv ∈ peersW, ∀ t, pv.tip = some t →
      (((pv.peer, t) ∈ (find_merge_targets 2 ancW peersW).merged) ↔ ancW 2 t = true) ∧
      (((pv.peer, t) ∈ (find_merge_targets 2 ancW peersW).not_merged) ↔ ancW 2 t = false)) ∧
    (∀ pv ∈ peersW, pv.tip = none →
      (∀ x ∈ (find_merge_targets 2 ancW peersW).merged, x.1 ≠ pv.peer) ∧
      (∀ x ∈ (find_merge_targets 2 ancW peersW).not_merged, x.1 ≠ pv.peer)) ∧
    (∀ x ∈ (find_merge_targets 2 ancW peersW).merged,
        x ∉ (find_merge_targets 2 ancW peersW).not_merged) ∧
    (∀ x, (x ∈ (find_merge_targets 2 ancW peersW).merged ∨
           x ∈ (find_merge_targets 2 ancW peersW).not_merged) →
        ∃ pv ∈ peersW, pv.peer = x.1 ∧ pv.tip = some x.2)) :=
  ⟨by decide, find_merge_targets_partitions 2 ancW peersW (by decide)⟩

/-- C3: if the operator declines either confirmation checkpoint, `create`
triggers no durable side effect: no Patch Store create call and no
synchronization run appear in its event trace (everything else it does is a
read or terminal output). -/
theorem create_declined_no_side_effects (env : Env)
    (h : env.confirmContinue = false ∨ env.confirmCreate = false) :
    ∀ e ∈ (create env).1, e.durable = false := by
  intro e he
  simp only [create, createFromTarget, createFromGraphQuery, createFromEditor,
    withEvent] at he
  repeat' split at he
  all_goals simp_all [Event.durable]
  all_goals (rcases he with rfl | rfl <;> rfl)

/-- Witness for C3: with the second confirmation declined, a fully concrete
run reaches no durable side effect. -/
theorem create_declined_no_side_effects_witness :
    (envDeclineCreate.confirmContinue = false ∨
      envDeclineCreate.confirmCreate = false) ∧
    (∀ e ∈ (create envDeclineCreate).1, e.durable = false) :=
  ⟨Or.inr rfl, create_declined_no_side_effects envDeclineCreate (Or.inr rfl)⟩

/-- C2 (amended): every Patch Store create call made by `create` carries the
constant default merge-target designator (not the candidate resolved in
step 3, which is used only for the preview), the project urn, and the head
commit resolved from HEAD; the store (modelled from the spec) then persists a
patch whose revision sequence is the single version-0 revision tagged at that
head commit. -/
theorem create_store_call_shape (env : Env) (u t d : String) (tgt : MergeTarget)
    (h : Oid)
    (hmem : Event.storeCreate u t d tgt h ∈ (create env).1) :
    tgt = MergeTarget.defaultTarget ∧ u = env.urn ∧
    (∃ hd, env.repoHead = .ok hd ∧ hd.target = some h) ∧
    (∀ a an ts, ((storeMkPatch a an t d ts tgt h).2.revisions) = ⟨⟨0, h, []⟩, []⟩) := by
  simp only [create, createFromTarget, createFromGraphQuery, createFromEditor,
    withEvent] at hmem
  repeat' split at hmem
  all_goals simp_all [storeMkPatch]

/-- Counterexample for C2 as stated: in a run whose sole not-merged candidate
is ("peerB", 7), the Patch Store receives the constant default designator,
which is not the designator of that candidate; a run differing only in its
sole candidate produces the very same store call. -/
theorem create_store_call_shape_counterexample :
    (Event.storeCreate "rad:project:1" "Title line" "Body text\n"
        MergeTarget.defaultTarget 1 ∈ (create env0).1) ∧
    (Event.storeCreate "rad:project:1" "Title line" "Body text\n"
        MergeTarget.defaultTarget 1 ∈ (create envOtherTarget).1) ∧
    MergeTarget.defaultTarget ≠ MergeTarget.explicitPeer "peerB" 7 := by
  refine ⟨?_, ?_, by decide⟩
  · have h : create env0 =
        ([Event.findMergeTargets, Event.graphAheadBehind 1 7,
          Event.storeCreate "rad:project:1" "Title line" "Body text\n"
            MergeTarget.defaultTarget 1], .ok) := by rfl
    rw [h]
    simp
  · have h : create envOtherTarget =
        ([Event.findMergeTargets, Event.graphAheadBehind 1 9,
          Event.storeCreate "rad:project:1" "Title line" "Body text\n"
            MergeTarget.defaultTarget 1], .ok) := by rfl
    rw [h]
    simp

/-- Witness for C2 (amended), at the concrete run env0. -/
theorem create_store_call_shape_witness :
    (Event.storeCreate "rad:project:1" "Title line" "Body text\n"
        MergeTarget.defaultTarget 1 ∈ (create env0).1) ∧
    (MergeTarget.defaultTarget = MergeTarget.defaultTarget ∧
     "rad:project:1" = env0.urn ∧
     (∃ hd, env0.repoHead = .ok hd ∧ hd.target = some 1) ∧
     (∀ a an ts, ((storeMkPatch a an "Title line" "Body text\n" ts
         MergeTarget.defaultTarget 1).2.revisions) = ⟨⟨0, 1, []⟩, []⟩)) := by
  have hmem : Event.storeCreate "rad:project:1" "Title line" "Body text\n"
      MergeTarget.defaultTarget 1 ∈ (create env0).1 := by
    have h : create env0 =
        ([Event.findMergeTargets, Event.graphAheadBehind 1 7,
          Event.storeCreate "rad:project:1" "Title line" "Body text\n"
            MergeTarget.defaultTarget 1], .ok) := by rfl
    rw [h]
    simp
  exact ⟨hmem, create_store_call_shape env0 "rad:project:1" "Title line"
    "Body text\n" MergeTarget.defaultTarget 1 hmem⟩

/-- C4 (amended): user-initiated cancellation is signalled through the same
error channel as fatal errors. Declining the first confirmation makes `create`
return the error "patch proposal aborted by user"; leaving the editing session
without saving makes it return the error "user aborted the patch". In both
cases the outcome is an error, so under the error-to-exit mapping the process
terminates with a non-zero status, exactly as for the fatal errors of the
error taxonomy; the code does not special-case cancellation. -/
theorem create_user_cancellation_is_error (env : Env) (hd : HeadRef) (o : Oid)
    (c : Commit) (b rl : String) (s : MergeTargetSet) (tp : PeerName) (to2 : Oid)
    (u : String) (mb : Oid) (ab : Nat × Nat)
    (h1 : env.repoHead = .ok hd) (h2 : hd.target = some o)
    (h3 : env.findCommit o = .ok c) (h4 : hd.shorthand = some b)
    (h5 : env.refLike b = .ok rl) (h6 : env.storageHasHead = .ok true)
    (h7 : env.targets = .ok s) (h8 : s.not_merged = [(tp, to2)])
    (h9 : env.userName = .ok u) (h10 : env.graphAheadBehind o to2 = .ok ab)
    (h11 : env.mergeBase to2 o = .ok mb) (h12 : env.listCommits mb o = .ok ()) :
    (env.confirmContinue = false →
      (create env).2 = .err "patch proposal aborted by user" none ∧
      exitCode (create env).2 = 1) ∧
    (∀ m, env.confirmContinue = true → c.message = some m →
      env.editor (m ++ PATCH_MSG) = .ok none →
      (create env).2 = .err "user aborted the patch" none ∧
      exitCode (create env).2 = 1) := by
  constructor
  · intro hc
    have h : create env = ([Event.findMergeTargets, Event.graphAheadBehind o to2],
        .err "patch proposal aborted by user" none) := by
      simp [create, createFromTarget, createFromGraphQuery, withEvent,
        h1, h2, h3, h4, h5, h6, h7, h8, h9, h10, h11, h12, hc]
    rw [h]
    exact ⟨rfl, rfl⟩
  · intro m hc hm he
    have h : create env = ([Event.findMergeTargets, Event.graphAheadBehind o to2],
        .err "user aborted the patch" none) := by
      simp [create, createFromTarget, createFromGraphQuery, createFromEditor,
        withEvent, h1, h2, h3, h4, h5, h6, h7, h8, h9, h10, h11, h12, hc, hm, he]
    rw [h]
    exact ⟨rfl, rfl⟩

/-- Counterexample for C4 as stated: both cancellation paths produce the same
error-shaped outcome as a fatal precondition error (here, the detached-head
error), so under the error-to-exit mapping the process does not terminate with
status zero on cancellation. -/
theorem create_user_cancellation_counterexample :
    (create envDecline).2 = .err "patch proposal aborted by user" none ∧
    exitCode (create envDecline).2 = 1 ∧
    (create envNoSave).2 = .err "user aborted the patch" none ∧
    exitCode (create envNoSave).2 = 1 ∧
    (create envDetached).2 = .err "cannot create patch from detatched head; aborting" none ∧
    exitCode (create envDetached).2 = 1 ∧
    (1 : Nat) ≠ 0 := by
  refine ⟨rfl, rfl, rfl, rfl, rfl, rfl, by decide⟩

/-- Witness for C4 (amended), at the two concrete cancelling runs. -/
theorem create_user_cancellation_is_error_witness :
    ((create envDecline).2 = .err "patch proposal aborted by user" none ∧
      exitCode (create envDecline).2 = 1) ∧
    ((create envNoSave).2 = .err "user aborted the patch" none ∧
      exitCode (create envNoSave).2 = 1) :=
  ⟨(create_user_cancellation_is_error envDecline hd0 1 c0 "feature" "feature"
      ⟨[], [("peerB", 7)]⟩ "peerB" 7 "alice" 5 (1, 0)
      rfl rfl rfl rfl rfl rfl rfl rfl rfl rfl rfl rfl).1 rfl,
   (create_user_cancellation_is_error envNoSave hd0 1 c0 "feature" "feature"
      ⟨[], [("peerB", 7)]⟩ "peerB" 7 "alice" 5 (1, 0)
      rfl rfl rfl rfl rfl rfl rfl rfl rfl rfl rfl rfl).2
     "Title line\n\nBody text" rfl rfl rfl⟩

/-- C5 (amended): when merge-target resolution yields more than one not-merged
candidate, `create` hits unimplemented code and panics ("not yet implemented",
the Rust `todo!` on line 230) instead of failing with a handled
ambiguous-target error; with exactly one candidate it selects that sole
candidate and proceeds, querying the commit graph on the candidate tip. -/
theorem create_target_selection (env : Env) (hd : HeadRef) (o : Oid)
    (c : Commit) (b rl : String) (s : MergeTargetSet)
    (h1 : env.repoHead = .ok hd) (h2 : hd.target = some o)
    (h3 : env.findCommit o = .ok c) (h4 : hd.shorthand = some b)
    (h5 : env.refLike b = .ok rl) (h6 : env.storageHasHead = .ok true)
    (h7 : env.targets = .ok s) :
    (∀ t1 t2 rest2, s.not_merged = t1 :: t2 :: rest2 →
       create env = ([Event.findMergeTargets], .panic "not yet implemented")) ∧
    (∀ tp to2 u, s.not_merged = [(tp, to2)] → env.userName = .ok u →
       Event.graphAheadBehind o to2 ∈ (create env).1) := by
  constructor
  · intro t1 t2 rest2 h8
    simp [create, withEvent, h1, h2, h3, h4, h5, h6, h7, h8]
  · intro tp to2 u h8 h9
    simp [create, createFromTarget, withEvent, h1, h2, h3, h4, h5, h6, h7, h8, h9]

/-- Counterexample for C5 as stated: with two not-merged candidates, the run
ends in a panic, which is not an error surfaced to the operator (no error
message and no hint are produced). -/
theorem create_target_selection_counterexample :
    create envTwoTargets = ([Event.findMergeTargets], .panic "not yet implemented") ∧
    Res.isErr (create envTwoTargets).2 = false :=
  ⟨rfl, rfl⟩

/-- Witness for C5 (amended), at two concrete runs: one with two candidates
(panic) and one with the sole candidate ("peerB", 7) (proceeds to the
commit-graph query on tip 7). -/
theorem create_target_selection_witness :
    create envTwoTargets = ([Event.findMergeTargets], .panic "not yet implemented") ∧
    Event.graphAheadBehind 1 7 ∈ (create env0).1 :=
  ⟨(create_target_selection envTwoTargets hd0 1 c0 "feature" "feature"
      ⟨[], [("peerB", 7), ("peerC", 9)]⟩ rfl rfl rfl rfl rfl rfl rfl).1
      ("peerB", 7) ("peerC", 9) [] rfl,
   (create_target_selection env0 hd0 1 c0 "feature" "feature"
      ⟨[], [("peerB", 7)]⟩ rfl rfl rfl rfl rfl rfl rfl).2 "peerB" 7 "alice" rfl rfl⟩

/-- C6: when HEAD resolves but the head commit is absent from durable storage,
`create` fails with the precondition error "Current branch head not found in
storage" carrying the remediation hint "hint: run `rad push` and try again",
before merge-target resolution and before any Patch Store call: its event
trace is empty. -/
theorem create_unpublished_head (env : Env) (hd : HeadRef) (o : Oid)
    (c : Commit) (b rl : String)
    (h1 : env.repoHead = .ok hd) (h2 : hd.target = some o)
    (h3 : env.findCommit o = .ok c) (h4 : hd.shorthand = some b)
    (h5 : env.refLike b = .ok rl) (h6 : env.storageHasHead = .ok false) :
    create env = ([], .err "Current branch head not found in storage"
      (some "hint: run `rad push` and try again")) := by
  simp [create, h1, h2, h3, h4, h5, h6]

/-- Witness for C6, at a concrete run whose head commit is unpublished. -/
theorem create_unpublished_head_witness :
    envUnpub.storageHasHead = .ok false ∧
    create envUnpub = ([], .err "Current branch head not found in storage"
      (some "hint: run `rad push` and try again")) :=
  ⟨rfl, create_unpublished_head envUnpub hd0 1 c0 "feature" "feature"
    rfl rfl rfl rfl rfl rfl⟩

/-- C7 (amended): `create` fails with the error "no merge targets found for
patch" exactly when the not-merged sequence is empty, regardless of the merged
sequence; its event trace then contains only the resolution call, so no Patch
Store call is made. In particular this happens when both sequences are
empty. -/
theorem create_no_targets (env : Env) (hd : HeadRef) (o : Oid)
    (c : Commit) (b rl : String) (s : MergeTargetSet)
    (h1 : env.repoHead = .ok hd) (h2 : hd.target = some o)
    (h3 : env.findCommit o = .ok c) (h4 : hd.shorthand = some b)
    (h5 : env.refLike b = .ok rl) (h6 : env.storageHasHead = .ok true)
    (h7 : env.targets = .ok s) (h8 : s.not_merged = []) :
    create env = ([Event.findMergeTargets],
      .err "no merge targets found for patch" none) := by
  simp [create, withEvent, h1, h2, h3, h4, h5, h6, h7, h8]

/-- Counterexample for C7 as stated ("raised only when both sets are empty"):
a run whose resolution returns a nonempty merged sequence and an empty
not-merged sequence still fails with "no merge targets found for patch". -/
theorem create_no_targets_counterexample :
    envMergedOnly.targets = .ok ⟨[("peerA", 3)], []⟩ ∧
    ([("peerA", 3)] : List Target) ≠ [] ∧
    create envMergedOnly = ([Event.findMergeTargets],
      .err "no merge targets found for patch" none) := by
  refine ⟨rfl, by decide, rfl⟩

/-- Witness for C7 (amended), at a concrete run with both sequences empty. -/
theorem create_no_targets_witness :
    envNoTargets.targets = .ok ⟨[], []⟩ ∧
    create envNoTargets = ([Event.findMergeTargets],
      .err "no merge targets found for patch" none) :=
  ⟨rfl, create_no_targets envNoTargets hd0 1 c0 "feature" "feature"
    ⟨[], []⟩ rfl rfl rfl rfl rfl rfl rfl rfl⟩

/-- C8 (amended): the message parser fails with the malformed-message error
whenever the saved text has no blank-line-separated body; on the
specification scenario (seed "Title line\n\nBody text" plus the boilerplate,
saved unchanged with trailing newlines stripped) it yields the title
"Title line" and the description "Body text\n" with the boilerplate stripped:
because the source trims the description before deleting the boilerplate
block, the newline that separated the body from the boilerplate survives. -/
theorem parse_message_behaviour :
    (∀ s : String, splitOnceNN s.toList = none →
      parse_message s = .error "invalid title or description") ∧
    parse_message (stripTrailingNewlines ("Title line\n\nBody text" ++ PATCH_MSG)) =
      .ok ("Title line", "Body text\n") := by
  constructor
  · intro s hs
    have hs2 : splitOnceNN s.data = none := hs
    simp [parse_message, hs2]
  · rfl

/-- Counterexample for C8 as stated: on the specification scenario the parsed
description is "Body text\n", not "Body text". -/
theorem parse_message_counterexample :
    parse_message (stripTrailingNewlines ("Title line\n\nBody text" ++ PATCH_MSG)) =
      .ok ("Title line", "Body text\n") ∧
    ("Body text\n" : String) ≠ "Body text" :=
  ⟨rfl, by decide⟩

/-- Witness for C8 (amended), at a concrete one-line message with no body. -/
theorem parse_message_behaviour_witness :
    splitOnceNN ("single line".toList) = none ∧
    parse_message "single line" = .error "invalid title or description" :=
  ⟨rfl, parse_message_behaviour.1 "single line" rfl⟩

/-- C9: `list` partitions the store enumeration so that a patch lands in the
"own" group exactly when its author urn equals the local identity urn and in
the "others" group exactly otherwise, both groups keeping the enumeration
order (each group is the order-preserving filter of the enumeration). -/
theorem list_partition_correct (w : String) (l : List (Nat × Patch)) :
    (partitionProposed w l).1 = l.filter (fun x => x.2.author == w) ∧
    (partitionProposed w l).2 = l.filter (fun x => !(x.2.author == w)) ∧
    (∀ x, x ∈ (partitionProposed w l).1 ↔ x ∈ l ∧ x.2.author = w) ∧
    (∀ x, x ∈ (partitionProposed w l).2 ↔ x ∈ l ∧ x.2.author ≠ w) := by
  have h1 : ∀ l2 : List (Nat × Patch),
      (partitionProposed w l2).1 = l2.filter (fun x => x.2.author == w) := by
    intro l2
    induction l2 with
    | nil => rfl
    | cons a rest ih =>
      rcases a with ⟨id, p⟩
      by_cases hp : p.author = w <;>
        simp [partitionProposed, List.filter_cons, ih, hp]
  have h2 : ∀ l2 : List (Nat × Patch),
      (partitionProposed w l2).2 = l2.filter (fun x => !(x.2.author == w)) := by
    intro l2
    induction l2 with
    | nil => rfl
    | cons a rest ih =>
      rcases a with ⟨id, p⟩
      by_cases hp : p.author = w <;>
        simp [partitionProposed, List.filter_cons, ih, hp]
  refine ⟨h1 l, h2 l, ?_, ?_⟩
  · intro x
    rw [h1 l, List.mem_filter]
    simp
  · intro x
    rw [h2 l, List.mem_filter]
    simp

/-- C10: when the local HEAD reference has no direct target commit, `print`
does not fail: it renders the patch with an empty ahead/behind segment, all
other fields (title, latest revision version and tag, author, merge lines)
still rendered, and its result does not depend on the commit-graph adapter at
all (no ahead/behind query is consulted). -/
theorem print_unborn_head_renders (whoami : String) (patch : Patch)
    (g1 g2 : Oid → Oid → Except String (Nat × Nat))
    (pI : PeerName → PeerInfo) (lp : PeerName) :
    printPatch whoami patch none g1 pI lp =
      .ok { title := patch.title
            revisionVersion := patch.revisions.last.version
            revisionTag := patch.revisions.last.tag
            authorName := patch.authorName
            authorTimestamp := patch.timestamp
            youBadge := patch.author == whoami
            diff := ""
            mergeLines := patch.revisions.last.merges.map (fun m =>
              let pi := pI m.peer
              { name := pi.name, delegateBadge := pi.delegate,
                youBadge := pi.id == lp, timestamp := m.timestamp }) } ∧
    printPatch whoami patch none g1 pI lp = printPatch whoami patch none g2 pI lp :=
  ⟨rfl, rfl⟩
